import Mathlib

/-!
A shallow embedding of the core logic of the Metal Viewer web application
(src/app.js, which contains two sibling variants of the viewer).

Conventions of the embedding:
* JavaScript numbers are modelled as exact rationals; every quantity the
  program computes is therefore a finite rational by construction (there is
  no NaN or Infinity in the model).
* The single transcendental the code uses, Math.tan(degToRad(camera.fov)/2),
  is a library primitive; it enters the model as an explicit parameter
  tanHalfFov, the value of the tangent of half the vertical field of view.
* THREE.Box3, Box3.getSize, Box3.getCenter are embedded following the
  library semantics the code relies on: an empty box (a max corner strictly
  below the min corner on some axis) has size and center (0,0,0), otherwise
  size = max - min and center = (min + max) * 0.5.
* Scene objects are modelled unrotated: the world bounding box of an object
  is position + scale * localBox componentwise, which is the semantics of
  THREE.Box3.setFromObject for an object whose rotation is the identity and
  whose scale is componentwise nonnegative.
-/

namespace MetalViewer

/-- A 3-component vector over the rationals, the model of THREE.Vector3. -/
structure Vec3 where
  x : ℚ
  y : ℚ
  z : ℚ
deriving DecidableEq, Repr

instance : Add Vec3 := ⟨fun a b => ⟨a.x + b.x, a.y + b.y, a.z + b.z⟩⟩

instance : Sub Vec3 := ⟨fun a b => ⟨a.x - b.x, a.y - b.y, a.z - b.z⟩⟩

instance : Neg Vec3 := ⟨fun a => ⟨-a.x, -a.y, -a.z⟩⟩

/-- Componentwise (Hadamard) product, the effect of scaling each axis. -/
def Vec3.hmul (a b : Vec3) : Vec3 := ⟨a.x * b.x, a.y * b.y, a.z * b.z⟩

/-- Scalar multiple of a vector. -/
def Vec3.smul (q : ℚ) (v : Vec3) : Vec3 := ⟨q * v.x, q * v.y, q * v.z⟩

/-- The model of THREE.Box3: an axis-aligned box given by its two corners. -/
structure Box3 where
  min : Vec3
  max : Vec3
deriving DecidableEq, Repr

/-- THREE.Box3.isEmpty: the box is empty when the max corner is strictly
below the min corner on some axis. -/
def Box3.isEmpty (b : Box3) : Prop :=
  b.max.x < b.min.x ∨ b.max.y < b.min.y ∨ b.max.z < b.min.z

instance (b : Box3) : Decidable b.isEmpty := by
  unfold Box3.isEmpty
  infer_instance

/-- THREE.Box3.getSize: (0,0,0) for an empty box, otherwise max - min. -/
def Box3.getSize (b : Box3) : Vec3 :=
  if b.isEmpty then ⟨0, 0, 0⟩ else b.max - b.min

/-- THREE.Box3.getCenter: (0,0,0) for an empty box, otherwise the midpoint. -/
def Box3.getCenter (b : Box3) : Vec3 :=
  if b.isEmpty then ⟨0, 0, 0⟩ else Vec3.smul (1/2) (b.min + b.max)

/-- The JavaScript idiom `a || b` on numbers: b when a is 0 (falsy),
otherwise a.  (NaN, the other falsy number, does not exist in the model.) -/
def jsOr (a b : ℚ) : ℚ := if a = 0 then b else a

/-- Math.max(size.x, size.y, size.z) of the size of a box: the largest
dimension of the box, before the degenerate floor is applied. -/
def maxDimOf (b : Box3) : ℚ :=
  max b.getSize.x (max b.getSize.y b.getSize.z)

/-- The camera-and-controls pose computed by frameObject (src/app.js,
first variant, lines 50-74): what the function writes onto the live camera
and OrbitControls objects, together with the internal fitDistance. -/
structure FitPose where
  fitDistance : ℚ
  cameraPos : Vec3
  near : ℚ
  far : ℚ
  target : Vec3
  minDistance : ℚ
  maxDistance : ℚ
deriving DecidableEq, Repr

/-- The pure core of frameObject (src/app.js lines 50-74).  tanHalfFov
stands for Math.tan(THREE.MathUtils.degToRad(camera.fov) / 2); fitOffset is
the margin multiplier (the source uses 1.5).  Mirrors the source line by
line: maxDim = Math.max(size.x, size.y, size.z) || 1.0; fitDistance =
(maxDim * fitOffset) / tan; camera.position = center + (0, maxDim * 0.3,
fitDistance); camera.near = maxDim / 100; camera.far = maxDim * 20;
controls.target = center; controls.minDistance = maxDim * 0.1;
controls.maxDistance = maxDim * 10. -/
def computeFitPose (box : Box3) (tanHalfFov : ℚ) (fitOffset : ℚ) : FitPose :=
  let size := box.getSize
  let center := box.getCenter
  let maxDim := jsOr (max size.x (max size.y size.z)) 1.0
  let fitDistance := (maxDim * fitOffset) / tanHalfFov
  { fitDistance := fitDistance
    cameraPos := center + ⟨0, maxDim * 0.3, fitDistance⟩
    near := maxDim / 100
    far := maxDim * 20
    target := center
    minDistance := maxDim * 0.1
    maxDistance := maxDim * 10 }

/-- The model of a material object.  A three.js material exposes a shading
parameter exactly when it carries the corresponding own property, so
metalness and roughness are options: `some` models a present property (a
PBR material such as MeshStandardMaterial), `none` a missing one (line,
sprite, shader materials).  envMapIntensity and needsUpdate are plain
fields (assignment in JavaScript creates them when missing).  payload
stands for every other field of the material (color, maps, ...), which the
core never touches. -/
structure Material where
  metalness : Option ℚ
  roughness : Option ℚ
  envMapIntensity : ℚ
  needsUpdate : Bool
  payload : ℕ
deriving DecidableEq, Repr

/-- The material field of a mesh: either a single (possibly null) material
or a list of (possibly null) materials, as in three.js where mesh.material
is Material or an array of Materials. -/
inductive MatRef where
  | single : Option Material → MatRef
  | multi : List (Option Material) → MatRef
deriving DecidableEq, Repr

/-- A scene-graph node: an isMesh flag (whether the node carries a
renderable payload), its material field, and its children.  Node3D.node
b r cs models a three.js Object3D; traversal visits the node itself and
then its descendants, as THREE.Object3D.traverse does. -/
inductive Node3D where
  | node : Bool → MatRef → List Node3D → Node3D

/-- tweakPBR (src/app.js second variant, lines 397-405): skip when the
material is null or does not expose both a metalness and a roughness
property; otherwise set metalness and roughness to the given values, set
envMapIntensity to 1.2 when an environment map is active and 0.4 otherwise,
and set needsUpdate. -/
def tweakPBR (mo : Option Material) (metalness roughness : ℚ) (hasEnv : Bool) :
    Option Material :=
  match mo with
  | none => none
  | some m =>
    if m.metalness.isSome && m.roughness.isSome then
      some { m with
              metalness := some metalness
              roughness := some roughness
              envMapIntensity := if hasEnv then 1.2 else 0.4
              needsUpdate := true }
    else
      some m

/-- The branch of applyMetalMaterial on one mesh material field: apply
tweakPBR to the single material, or to each element of the material list. -/
def tweakRef (r : MatRef) (metalness roughness : ℚ) (hasEnv : Bool) : MatRef :=
  match r with
  | .single mo => .single (tweakPBR mo metalness roughness hasEnv)
  | .multi ms => .multi (ms.map (fun mo => tweakPBR mo metalness roughness hasEnv))

mutual

/-- applyMetalMaterial (src/app.js second variant, lines 381-395) as a
scene-graph transformation: traverse the subtree, and at every node with
isMesh apply tweakPBR to its material(s).  hasEnv models whether the
currentEnvMap global is non-null. -/
def applyMetalMaterial (metalness roughness : ℚ) (hasEnv : Bool) : Node3D → Node3D
  | .node isMesh r cs =>
    .node isMesh (if isMesh then tweakRef r metalness roughness hasEnv else r)
      (applyMetalMaterialList metalness roughness hasEnv cs)

/-- applyMetalMaterial on a list of sibling subtrees. -/
def applyMetalMaterialList (metalness roughness : ℚ) (hasEnv : Bool) :
    List Node3D → List Node3D
  | [] => []
  | c :: cs =>
    applyMetalMaterial metalness roughness hasEnv c ::
      applyMetalMaterialList metalness roughness hasEnv cs

end

/-- The materials referenced by one mesh material field, in order. -/
def refMaterials : MatRef → List (Option Material)
  | .single mo => [mo]
  | .multi ms => ms

mutual

/-- All materials referenced by meshes in the subtree, in traversal
(preorder) order: the materials a traverse over the subtree reaches. -/
def collectMaterials : Node3D → List (Option Material)
  | .node isMesh r cs =>
    (if isMesh then refMaterials r else []) ++ collectMaterialsList cs

/-- collectMaterials over a list of sibling subtrees. -/
def collectMaterialsList : List Node3D → List (Option Material)
  | [] => []
  | c :: cs => collectMaterials c ++ collectMaterialsList cs

end

/-- Whether a material reference is PBR-capable for tweakPBR: present and
exposing both a metalness and a roughness parameter. -/
def isPBRCapable : Option Material → Bool
  | none => false
  | some m => m.metalness.isSome && m.roughness.isSome

/-- The effect of updateMaterialSettings (src/app.js first variant, lines
77-84) on one collected entry of currentMaterialList.  The collection loop
(lines 107-114) pushes obj.material itself for every mesh; the update loop
skips a null entry and otherwise assigns metalness, roughness and
needsUpdate on the entry.  When the entry is a single material object the
assignments land on the material (creating the properties when absent, as
JavaScript assignment does).  When the entry is an array of materials the
assignments create properties on the array object itself and leave the
materials inside the array untouched, which is why the multi branch is the
identity on the materials. -/
def updateEntryV1 (metalness roughness : ℚ) : MatRef → MatRef
  | .single none => .single none
  | .single (some m) =>
    .single (some { m with
                     metalness := some metalness
                     roughness := some roughness
                     needsUpdate := true })
  | .multi ms => .multi ms

mutual

/-- The material propagation of the first variant as a scene-graph
transformation: updateMaterialSettings applied over the entries that the
mesh traversal of the model-input change handler collects. -/
def updateMaterialSettings (metalness roughness : ℚ) : Node3D → Node3D
  | .node isMesh r cs =>
    .node isMesh (if isMesh then updateEntryV1 metalness roughness r else r)
      (updateMaterialSettingsList metalness roughness cs)

/-- updateMaterialSettings on a list of sibling subtrees. -/
def updateMaterialSettingsList (metalness roughness : ℚ) :
    List Node3D → List Node3D
  | [] => []
  | c :: cs =>
    updateMaterialSettings metalness roughness c ::
      updateMaterialSettingsList metalness roughness cs

end

/-- The domain on which the two material-propagation variants can agree on
one mesh material field: a single entry that is either null (both variants
skip it) or a PBR-capable material whose envMapIntensity already equals the
preset the second variant is about to write.  Array-valued material fields
are excluded: the first variant does not reach the materials inside the
array. -/
def entryOK (hasEnv : Bool) : MatRef → Bool
  | .single none => true
  | .single (some m) =>
    m.metalness.isSome && m.roughness.isSome &&
      decide (m.envMapIntensity = if hasEnv then 1.2 else 0.4)
  | .multi _ => false

mutual

/-- Every mesh in the subtree has a material field in the agreement domain
of the two variants. -/
def treeOK (hasEnv : Bool) : Node3D → Bool
  | .node isMesh r cs => (!isMesh || entryOK hasEnv r) && treeOKList hasEnv cs

/-- treeOK over a list of sibling subtrees. -/
def treeOKList (hasEnv : Bool) : List Node3D → Bool
  | [] => true
  | c :: cs => treeOK hasEnv c && treeOKList hasEnv cs

end

/-- The model of a scene object as the framing and normalization routines
see it: its transform (position, rotation, scale), its scene graph with the
materials of its descendants, and localBox, the aggregate bounding box of
its geometry in its own local frame (what THREE.Box3.setFromObject would
compute for the object placed at the origin with identity transform). -/
structure Object3D where
  position : Vec3
  rotation : Vec3
  scale : Vec3
  node : Node3D
  localBox : Box3

/-- The world bounding box of an object, the model of
THREE.Box3().setFromObject(object) for an unrotated object with
componentwise nonnegative scale: each local corner is scaled componentwise
and translated by the position. -/
def worldBox (obj : Object3D) : Box3 :=
  { min := obj.position + obj.scale.hmul obj.localBox.min
    max := obj.position + obj.scale.hmul obj.localBox.max }

/-- autoCenterAndScale (src/app.js second variant, lines 362-378): compute
the world box of the object, add -center (plus the 2-percent vertical
nudge) to the position, and when maxDim > 0 overwrite the scale with the
uniform 0.6 / maxDim; when maxDim = 0 the scale is left untouched. -/
def autoCenterAndScale (obj : Object3D) : Object3D :=
  let box := worldBox obj
  let size := box.getSize
  let center := box.getCenter
  let pos1 : Vec3 :=
    ⟨obj.position.x + -center.x,
     obj.position.y + (-center.y + size.y * 0.02),
     obj.position.z + -center.z⟩
  let maxDim := max size.x (max size.y size.z)
  if 0 < maxDim then
    let s := 0.6 / maxDim
    { obj with position := pos1, scale := ⟨s, s, s⟩ }
  else
    { obj with position := pos1 }

/-- The camera state frameObject touches: position, vertical field of view
in degrees, and the near and far clip planes. -/
structure Camera where
  pos : Vec3
  fov : ℚ
  near : ℚ
  far : ℚ

/-- The OrbitControls state frameObject touches: the orbit target and the
distance limits. -/
structure ControlsState where
  target : Vec3
  minDistance : ℚ
  maxDistance : ℚ

/-- The state frameObject operates on: the object being framed (read only),
the camera and the controls (written). -/
structure World where
  obj : Object3D
  camera : Camera
  controls : ControlsState

/-- frameObject (src/app.js first variant, lines 50-74) as a state
transformation: compute the world box of the object and write the fit pose
onto the camera and the controls.  tanHalfFov stands for
Math.tan(THREE.MathUtils.degToRad(camera.fov) / 2). -/
def frameObject (w : World) (tanHalfFov : ℚ) : World :=
  let pose := computeFitPose (worldBox w.obj) tanHalfFov 1.5
  { w with
      camera := { w.camera with
                    pos := pose.cameraPos
                    near := pose.near
                    far := pose.far }
      controls := { target := pose.target
                    minDistance := pose.minDistance
                    maxDistance := pose.maxDistance } }

/-- A sample PBR-capable material (both parameters present), used as a
concrete test input. -/
def pbrSample : Material :=
  { metalness := some 0
    roughness := some 1
    envMapIntensity := 1
    needsUpdate := false
    payload := 7 }

/-- A sample non-PBR material (neither parameter present), the model of a
line material, used as a concrete test input. -/
def lineSample : Material :=
  { metalness := none
    roughness := none
    envMapIntensity := 1
    needsUpdate := false
    payload := 3 }

/-- A sample scene: a non-mesh root with a single-material mesh, a
multi-material mesh and a non-PBR mesh as children. -/
def sampleTree : Node3D :=
  .node false (.single none)
    [ .node true (.single (some pbrSample)) []
    , .node true (.multi [some pbrSample, some lineSample]) []
    , .node true (.single (some lineSample)) [] ]

/-- A trivial scene graph, for objects whose material content is
irrelevant to the test. -/
def emptyNode : Node3D := .node false (.single none) []

/-- A degenerate object with a non-identity scale: its geometry is a single
point, so its bounding box has size (0,0,0). -/
def cexScaleObj : Object3D :=
  { position := ⟨0, 0, 0⟩
    rotation := ⟨0, 0, 0⟩
    scale := ⟨2, 2, 2⟩
    node := emptyNode
    localBox := ⟨⟨0, 0, 0⟩, ⟨0, 0, 0⟩⟩ }

/-- An object at the origin with identity transform whose geometry is a
unit cube centered at (10, 0, 0) in its own local frame: the pivot is far
from the bounding-box center. -/
def cexOffsetObj : Object3D :=
  { position := ⟨0, 0, 0⟩
    rotation := ⟨0, 0, 0⟩
    scale := ⟨1, 1, 1⟩
    node := emptyNode
    localBox := ⟨⟨19/2, -1/2, -1/2⟩, ⟨21/2, 1/2, 1/2⟩⟩ }

/-- An object with identity transform whose local bounding box is centered
at its pivot, of size (2, 4, 2). -/
def centeredObj : Object3D :=
  { position := ⟨1, 2, 3⟩
    rotation := ⟨0, 0, 0⟩
    scale := ⟨1, 1, 1⟩
    node := emptyNode
    localBox := ⟨⟨-1, -2, -1⟩, ⟨1, 2, 1⟩⟩ }

/-- A PBR material whose envMapIntensity already equals the inactive-map
preset 0.4. -/
def okMat : Material :=
  { metalness := some 0
    roughness := some 1
    envMapIntensity := 0.4
    needsUpdate := false
    payload := 5 }

/-- A one-mesh scene on which the two material-propagation variants agree. -/
def agreeTree : Node3D := .node true (.single (some okMat)) []

/-- A one-mesh scene holding a PBR material whose envMapIntensity (1) is
neither preset: the two material-propagation variants disagree on it. -/
def cexTreeV : Node3D := .node true (.single (some pbrSample)) []

/-! ## Basic lemmas about the vector operations -/

@[simp]
theorem Vec3.add_def (a b : Vec3) : a + b = ⟨a.x + b.x, a.y + b.y, a.z + b.z⟩ := rfl

@[simp]
theorem Vec3.sub_def (a b : Vec3) : a - b = ⟨a.x - b.x, a.y - b.y, a.z - b.z⟩ := rfl

@[simp]
theorem Vec3.neg_def (a : Vec3) : -a = ⟨-a.x, -a.y, -a.z⟩ := rfl

@[simp]
theorem Vec3.hmul_def (a b : Vec3) : a.hmul b = ⟨a.x * b.x, a.y * b.y, a.z * b.z⟩ := rfl

@[simp]
theorem Vec3.smul_def (q : ℚ) (v : Vec3) :
    Vec3.smul q v = ⟨q * v.x, q * v.y, q * v.z⟩ := rfl

/-! ## Theorems -/

/-- C1: for every bounding box of size s and center c, frameObject /
computeFitPose computes maxDim = max(s.x, s.y, s.z) floored to 1.0 when
zero, fitDistance = (maxDim * 1.5) / tan(fov / 2) (tanHalfFov is the value
of that tangent), and places the camera at
c + (0, maxDim * 0.3, fitDistance). -/
theorem computeFitPose_distance_position (box : Box3) (tanHalfFov : ℚ) :
    (computeFitPose box tanHalfFov 1.5).fitDistance
        = (if maxDimOf box = 0 then 1 else maxDimOf box) * 1.5 / tanHalfFov
    ∧ (computeFitPose box tanHalfFov 1.5).cameraPos
        = box.getCenter
          + ⟨0, (if maxDimOf box = 0 then 1 else maxDimOf box) * 0.3,
              (if maxDimOf box = 0 then 1 else maxDimOf box) * 1.5 / tanHalfFov⟩ := by
  constructor <;> norm_num [computeFitPose, jsOr, maxDimOf]

/-- C2: frameObject / computeFitPose sets near = maxDim / 100,
far = maxDim * 20, orbit target = center, orbit minimum distance =
maxDim * 0.1 and orbit maximum distance = maxDim * 10, and when the box has
maxDim > 0 the result satisfies near < far and 0 < minDistance <
maxDistance. -/
theorem computeFitPose_clip_orbit (box : Box3) (tanHalfFov : ℚ)
    (h : 0 < maxDimOf box) :
    (computeFitPose box tanHalfFov 1.5).near = maxDimOf box / 100
    ∧ (computeFitPose box tanHalfFov 1.5).far = maxDimOf box * 20
    ∧ (computeFitPose box tanHalfFov 1.5).target = box.getCenter
    ∧ (computeFitPose box tanHalfFov 1.5).minDistance = maxDimOf box * 0.1
    ∧ (computeFitPose box tanHalfFov 1.5).maxDistance = maxDimOf box * 10
    ∧ (computeFitPose box tanHalfFov 1.5).near < (computeFitPose box tanHalfFov 1.5).far
    ∧ 0 < (computeFitPose box tanHalfFov 1.5).minDistance
    ∧ (computeFitPose box tanHalfFov 1.5).minDistance
        < (computeFitPose box tanHalfFov 1.5).maxDistance := by
  have hpos : 0 < max box.getSize.x (max box.getSize.y box.getSize.z) := h
  have hne : max box.getSize.x (max box.getSize.y box.getSize.z) ≠ 0 := ne_of_gt hpos
  refine ⟨?_, ?_, ?_, ?_, ?_, ?_, ?_, ?_⟩ <;>
    simp only [computeFitPose, jsOr, maxDimOf, if_neg hne] <;>
    nlinarith

/-- Witness for C2 at the concrete box [(0,-1,-1), (2,3,1)], which has size
(2, 4, 2), center (1, 1, 0) and maxDim = 4, with tanHalfFov = 1. -/
theorem computeFitPose_clip_orbit_witness :
    0 < maxDimOf ⟨⟨0, -1, -1⟩, ⟨2, 3, 1⟩⟩
    ∧ (computeFitPose ⟨⟨0, -1, -1⟩, ⟨2, 3, 1⟩⟩ 1 1.5).near
        = maxDimOf ⟨⟨0, -1, -1⟩, ⟨2, 3, 1⟩⟩ / 100 :=
  ⟨by norm_num [maxDimOf, Box3.getSize, Box3.isEmpty],
    (computeFitPose_clip_orbit ⟨⟨0, -1, -1⟩, ⟨2, 3, 1⟩⟩ 1
      (by norm_num [maxDimOf, Box3.getSize, Box3.isEmpty])).1⟩

/-- C3: on a degenerate bounding box of size (0,0,0) the degenerate floor
substitutes 1.0 for maxDim; with tanHalfFov > 0 and fitOffset > 0 every
division in the computation has a nonzero divisor and the fit distance,
clip planes and orbit limits are all positive (and, being rationals of the
model, finite). -/
theorem computeFitPose_degenerate (box : Box3) (tanHalfFov fitOffset : ℚ)
    (hsize : box.getSize = ⟨0, 0, 0⟩) (ht : 0 < tanHalfFov) (ho : 0 < fitOffset) :
    jsOr (maxDimOf box) 1.0 = 1
    ∧ (computeFitPose box tanHalfFov fitOffset).fitDistance = fitOffset / tanHalfFov
    ∧ 0 < (computeFitPose box tanHalfFov fitOffset).fitDistance
    ∧ (computeFitPose box tanHalfFov fitOffset).near = 1 / 100
    ∧ (computeFitPose box tanHalfFov fitOffset).far = 20
    ∧ (computeFitPose box tanHalfFov fitOffset).minDistance = 1 / 10
    ∧ (computeFitPose box tanHalfFov fitOffset).maxDistance = 10
    ∧ 0 < (computeFitPose box tanHalfFov fitOffset).near
    ∧ (computeFitPose box tanHalfFov fitOffset).near
        < (computeFitPose box tanHalfFov fitOffset).far := by
  have hmax : max box.getSize.x (max box.getSize.y box.getSize.z) = 0 := by
    rw [hsize]
    norm_num
  have hfloor : jsOr (maxDimOf box) 1.0 = 1 := by
    norm_num [jsOr, maxDimOf, hmax]
  refine ⟨hfloor, ?_, ?_, ?_, ?_, ?_, ?_, ?_, ?_⟩ <;>
    simp only [computeFitPose, jsOr, maxDimOf, if_pos hmax] <;>
    norm_num
  all_goals positivity

/-- Witness for C3 at the point box [(5,5,5), (5,5,5)] with tanHalfFov = 1
and fitOffset = 1.5. -/
theorem computeFitPose_degenerate_witness :
    (Box3.getSize ⟨⟨5, 5, 5⟩, ⟨5, 5, 5⟩⟩ = ⟨0, 0, 0⟩ ∧ (0:ℚ) < 1 ∧ (0:ℚ) < 1.5)
    ∧ (computeFitPose ⟨⟨5, 5, 5⟩, ⟨5, 5, 5⟩⟩ 1 1.5).fitDistance = 1.5 / 1 :=
  ⟨⟨by norm_num [Box3.getSize, Box3.isEmpty], by norm_num, by norm_num⟩,
    (computeFitPose_degenerate ⟨⟨5, 5, 5⟩, ⟨5, 5, 5⟩⟩ 1 1.5
      (by norm_num [Box3.getSize, Box3.isEmpty]) (by norm_num) (by norm_num)).2.1⟩

/-! ## Helper lemmas for the material propagation -/

/-- tweakRef applies tweakPBR to the single material or to each element of
the material list. -/
theorem refMaterials_tweakRef (r : MatRef) (metal rough : ℚ) (env : Bool) :
    refMaterials (tweakRef r metal rough env)
      = (refMaterials r).map (fun mo => tweakPBR mo metal rough env) := by
  cases r <;> simp [tweakRef, refMaterials]

mutual

/-- The materials reached by applyMetalMaterial are exactly the collected
materials of the tree, each transformed by tweakPBR. -/
theorem collect_apply_node (metal rough : ℚ) (env : Bool) :
    (n : Node3D) →
      collectMaterials (applyMetalMaterial metal rough env n)
        = (collectMaterials n).map (fun mo => tweakPBR mo metal rough env)
  | .node isMesh r cs => by
    cases isMesh <;>
      simp [applyMetalMaterial, collectMaterials,
        collect_apply_list metal rough env cs, refMaterials_tweakRef]

/-- collect_apply_node over a list of sibling subtrees. -/
theorem collect_apply_list (metal rough : ℚ) (env : Bool) :
    (l : List Node3D) →
      collectMaterialsList (applyMetalMaterialList metal rough env l)
        = (collectMaterialsList l).map (fun mo => tweakPBR mo metal rough env)
  | [] => rfl
  | c :: cs => by
    simp [applyMetalMaterialList, collectMaterialsList,
      collect_apply_node metal rough env c, collect_apply_list metal rough env cs]

end

/-- tweakPBR is idempotent on every material reference. -/
theorem tweakPBR_idem (mo : Option Material) (metal rough : ℚ) (env : Bool) :
    tweakPBR (tweakPBR mo metal rough env) metal rough env
      = tweakPBR mo metal rough env := by
  cases mo with
  | none => rfl
  | some m =>
    by_cases hc : (m.metalness.isSome && m.roughness.isSome) = true
    · simp [tweakPBR, hc]
    · simp [tweakPBR, hc]

/-- tweakRef is idempotent on every mesh material field. -/
theorem tweakRef_idem (r : MatRef) (metal rough : ℚ) (env : Bool) :
    tweakRef (tweakRef r metal rough env) metal rough env
      = tweakRef r metal rough env := by
  cases r with
  | single mo => simp [tweakRef, tweakPBR_idem]
  | multi ms => simp [tweakRef, Function.comp, tweakPBR_idem]

mutual

/-- applyMetalMaterial is idempotent on every subtree. -/
theorem apply_idem_node (metal rough : ℚ) (env : Bool) :
    (n : Node3D) →
      applyMetalMaterial metal rough env (applyMetalMaterial metal rough env n)
        = applyMetalMaterial metal rough env n
  | .node isMesh r cs => by
    cases isMesh <;>
      simp [applyMetalMaterial, apply_idem_list metal rough env cs, tweakRef_idem]

/-- apply_idem_node over a list of sibling subtrees. -/
theorem apply_idem_list (metal rough : ℚ) (env : Bool) :
    (l : List Node3D) →
      applyMetalMaterialList metal rough env (applyMetalMaterialList metal rough env l)
        = applyMetalMaterialList metal rough env l
  | [] => rfl
  | c :: cs => by
    simp [applyMetalMaterialList, apply_idem_node metal rough env c,
      apply_idem_list metal rough env cs]

end

/-- C4: applyMetalMaterial visits every mesh of the subtree and applies
tweakPBR to its single material or to each element of its material list
(the collected-materials equation), and every PBR-capable material so
reached ends with exactly the given metalness and roughness, with
envMapIntensity exactly 1.2 when an environment map is active and 0.4
otherwise regardless of its prior value, and with needsUpdate set. -/
theorem applyMetalMaterial_pbr (metal rough : ℚ) (env : Bool) (root : Node3D)
    (mat : Material) (hmem : some mat ∈ collectMaterials root)
    (hm : mat.metalness.isSome = true) (hr : mat.roughness.isSome = true) :
    collectMaterials (applyMetalMaterial metal rough env root)
      = (collectMaterials root).map (fun mo => tweakPBR mo metal rough env)
    ∧ tweakPBR (some mat) metal rough env
      = some { mat with
                metalness := some metal
                roughness := some rough
                envMapIntensity := if env then 1.2 else 0.4
                needsUpdate := true } := by
  refine ⟨collect_apply_node metal rough env root, ?_⟩
  simp [tweakPBR, hm, hr]

/-- Witness for C4 on sampleTree at the PBR material, with metalness 0.8,
roughness 0.3 and an active environment map. -/
theorem applyMetalMaterial_pbr_witness :
    (some pbrSample ∈ collectMaterials sampleTree
      ∧ pbrSample.metalness.isSome = true ∧ pbrSample.roughness.isSome = true)
    ∧ collectMaterials (applyMetalMaterial 0.8 0.3 true sampleTree)
        = (collectMaterials sampleTree).map (fun mo => tweakPBR mo 0.8 0.3 true)
    ∧ tweakPBR (some pbrSample) 0.8 0.3 true
        = some { pbrSample with
                  metalness := some 0.8
                  roughness := some 0.3
                  envMapIntensity := if true then 1.2 else 0.4
                  needsUpdate := true } :=
  ⟨⟨by simp [sampleTree, collectMaterials, collectMaterialsList, refMaterials],
     rfl, rfl⟩,
   (applyMetalMaterial_pbr 0.8 0.3 true sampleTree pbrSample
      (by simp [sampleTree, collectMaterials, collectMaterialsList, refMaterials])
      rfl rfl).1,
   (applyMetalMaterial_pbr 0.8 0.3 true sampleTree pbrSample
      (by simp [sampleTree, collectMaterials, collectMaterialsList, refMaterials])
      rfl rfl).2⟩

/-- C5: on a material reference that is absent or does not expose both a
metalness and a roughness parameter, tweakPBR is the identity, and
applyMetalMaterial leaves every occurrence of such a non-PBR material in
the tree unmodified in every field (same entry at the same position). -/
theorem tweakPBR_nonPBR_noop (metal rough : ℚ) (env : Bool) (mo : Option Material)
    (h : isPBRCapable mo = false) :
    tweakPBR mo metal rough env = mo
    ∧ ∀ (root : Node3D) (i : ℕ),
        (collectMaterials root)[i]? = some mo →
        (collectMaterials (applyMetalMaterial metal rough env root))[i]? = some mo := by
  have hnoop : tweakPBR mo metal rough env = mo := by
    cases mo with
    | none => rfl
    | some m =>
      simp only [isPBRCapable] at h
      simp [tweakPBR, h]
  refine ⟨hnoop, ?_⟩
  intro root i hi
  rw [collect_apply_node, List.getElem?_map, hi]
  simp [hnoop]

/-- Witness for C5 on sampleTree at the non-PBR line material, which sits
at position 3 of the collected materials. -/
theorem tweakPBR_nonPBR_noop_witness :
    isPBRCapable (some lineSample) = false
    ∧ tweakPBR (some lineSample) 0.8 0.3 true = some lineSample
    ∧ (collectMaterials (applyMetalMaterial 0.8 0.3 true sampleTree))[3]?
        = some (some lineSample) :=
  ⟨rfl,
   (tweakPBR_nonPBR_noop 0.8 0.3 true (some lineSample) rfl).1,
   (tweakPBR_nonPBR_noop 0.8 0.3 true (some lineSample) rfl).2 sampleTree 3
     (by simp [sampleTree, collectMaterials, collectMaterialsList, refMaterials])⟩

/-- C6: applyMetalMaterial is idempotent: applying it twice with the same
(metalness, roughness, hasEnvironmentMap) leaves every material (indeed the
whole scene graph) in exactly the state of a single application. -/
theorem applyMetalMaterial_idempotent (metal rough : ℚ) (env : Bool) (root : Node3D) :
    applyMetalMaterial metal rough env (applyMetalMaterial metal rough env root)
      = applyMetalMaterial metal rough env root :=
  apply_idem_node metal rough env root

/-- C9: frameObject never mutates the object it frames: the whole object
component of the state (its position, rotation, scale, scene graph with all
descendant nodes and materials, and geometry box) is returned unchanged;
frameObject writes only the camera and the controls. -/
theorem frameObject_pure_on_object (w : World) (tanHalfFov : ℚ) :
    (frameObject w tanHalfFov).obj = w.obj := rfl

/-! ## Helper lemmas for non-empty boxes -/

/-- A box whose corners are ordered on every axis is not empty. -/
theorem Box3.not_isEmpty_of_le {b : Box3} (h1 : b.min.x ≤ b.max.x)
    (h2 : b.min.y ≤ b.max.y) (h3 : b.min.z ≤ b.max.z) : ¬ b.isEmpty := by
  simp only [Box3.isEmpty, not_or, not_lt]
  exact ⟨h1, h2, h3⟩

/-- getSize of a box with ordered corners. -/
theorem Box3.getSize_of_le {b : Box3} (h1 : b.min.x ≤ b.max.x)
    (h2 : b.min.y ≤ b.max.y) (h3 : b.min.z ≤ b.max.z) :
    b.getSize = b.max - b.min := by
  rw [Box3.getSize, if_neg (Box3.not_isEmpty_of_le h1 h2 h3)]

/-- getCenter of a box with ordered corners. -/
theorem Box3.getCenter_of_le {b : Box3} (h1 : b.min.x ≤ b.max.x)
    (h2 : b.min.y ≤ b.max.y) (h3 : b.min.z ≤ b.max.z) :
    b.getCenter = Vec3.smul (1/2) (b.min + b.max) := by
  rw [Box3.getCenter, if_neg (Box3.not_isEmpty_of_le h1 h2 h3)]

/-- C7 (amended): autoCenterAndScale adds the translation
-center + (0, size.y * 0.02, 0) to the position, and overwrites the scale
with the uniform 0.6 / maxDim when maxDim > 0; when maxDim = 0 no scaling
is applied: the scale is left unchanged (so it stays 1 exactly when the
incoming scale was 1, as for a freshly created scene root), and in the
exact-rational model no value is NaN or Infinity. -/
theorem autoCenterAndScale_normalization (obj : Object3D) :
    (autoCenterAndScale obj).position
      = obj.position - (worldBox obj).getCenter
          + ⟨0, (worldBox obj).getSize.y * 0.02, 0⟩
    ∧ (0 < maxDimOf (worldBox obj) →
        (autoCenterAndScale obj).scale
          = ⟨0.6 / maxDimOf (worldBox obj), 0.6 / maxDimOf (worldBox obj),
             0.6 / maxDimOf (worldBox obj)⟩)
    ∧ (maxDimOf (worldBox obj) = 0 → (autoCenterAndScale obj).scale = obj.scale)
    ∧ (maxDimOf (worldBox obj) = 0 → obj.scale = ⟨1, 1, 1⟩ →
        (autoCenterAndScale obj).scale = ⟨1, 1, 1⟩) := by
  by_cases h : 0 < max (worldBox obj).getSize.x
      (max (worldBox obj).getSize.y (worldBox obj).getSize.z)
  · refine ⟨?_, fun _ => ?_, fun h0 => ?_, fun h0 _ => ?_⟩
    · simp only [autoCenterAndScale, if_pos h, Vec3.sub_def, Vec3.add_def]
      ring_nf
    · simp only [autoCenterAndScale, if_pos h, maxDimOf]
    · exact absurd h0 (ne_of_gt (by simpa [maxDimOf] using h))
    · exact absurd h0 (ne_of_gt (by simpa [maxDimOf] using h))
  · refine ⟨?_, fun hpos => ?_, fun _ => ?_, fun _ hsc => ?_⟩
    · simp only [autoCenterAndScale, if_neg h, Vec3.sub_def, Vec3.add_def]
      ring_nf
    · exact absurd (by simpa [maxDimOf] using hpos) h
    · simp only [autoCenterAndScale, if_neg h]
    · rw [← hsc]
      simp only [autoCenterAndScale, if_neg h]

/-- Counterexample for C7 as frozen: a point-like object whose incoming
scale is (2,2,2) has a bounding box of size (0,0,0), and autoCenterAndScale
leaves its scale at (2,2,2), not 1. -/
theorem autoCenterAndScale_scale_cex :
    (worldBox cexScaleObj).getSize = ⟨0, 0, 0⟩
    ∧ (autoCenterAndScale cexScaleObj).scale ≠ ⟨1, 1, 1⟩ := by
  constructor
  · norm_num [worldBox, cexScaleObj, Box3.getSize, Box3.isEmpty, Vec3.hmul]
  · norm_num [autoCenterAndScale, worldBox, cexScaleObj, Box3.getSize,
      Box3.getCenter, Box3.isEmpty, Vec3.hmul, max_def]

/-- Witness for C7 on the cube object centered at its pivot, whose box has
maxDim = 4. -/
theorem autoCenterAndScale_normalization_witness :
    0 < maxDimOf (worldBox centeredObj)
    ∧ (autoCenterAndScale centeredObj).scale
        = ⟨0.6 / maxDimOf (worldBox centeredObj),
           0.6 / maxDimOf (worldBox centeredObj),
           0.6 / maxDimOf (worldBox centeredObj)⟩ :=
  ⟨by norm_num [maxDimOf, worldBox, centeredObj, Box3.getSize, Box3.isEmpty,
      Vec3.hmul, max_def],
   (autoCenterAndScale_normalization centeredObj).2.1
     (by norm_num [maxDimOf, worldBox, centeredObj, Box3.getSize, Box3.isEmpty,
        Vec3.hmul, max_def])⟩

/-- C8 (amended): for every unrotated object with incoming scale 1 whose
local bounding box is centered at its own pivot and has maxDim > 0, after
autoCenterAndScale the world bounding box is centered at the origin up to
the vertical nudge (0, size.y * 0.02, 0) and its largest dimension equals
the target 0.6.  (As frozen, without the pivot-centered hypothesis, the
claim fails: scaling happens about the pivot after the translation, so a
pivot away from the box center drags the box off the origin; see the
counterexample.) -/
theorem autoCenterAndScale_centered (obj : Object3D)
    (hrot : obj.rotation = ⟨0, 0, 0⟩)
    (hscale : obj.scale = ⟨1, 1, 1⟩)
    (hmid : obj.localBox.min + obj.localBox.max = ⟨0, 0, 0⟩)
    (hle1 : obj.localBox.min.x ≤ obj.localBox.max.x)
    (hle2 : obj.localBox.min.y ≤ obj.localBox.max.y)
    (hle3 : obj.localBox.min.z ≤ obj.localBox.max.z)
    (hpos : 0 < maxDimOf (worldBox obj)) :
    (worldBox (autoCenterAndScale obj)).getCenter
      = ⟨0, (worldBox obj).getSize.y * 0.02, 0⟩
    ∧ maxDimOf (worldBox (autoCenterAndScale obj)) = 0.6 := by
  obtain ⟨p, rot, sc, nd, lb⟩ := obj
  obtain ⟨lmin, lmax⟩ := lb
  obtain ⟨px, py, pz⟩ := p
  obtain ⟨a1, a2, a3⟩ := lmin
  obtain ⟨b1, b2, b3⟩ := lmax
  dsimp only at hscale hmid hle1 hle2 hle3 hpos ⊢
  subst hscale
  obtain ⟨hm1, hm2, hm3⟩ :
      a1 + b1 = 0 ∧ a2 + b2 = 0 ∧ a3 + b3 = 0 := by
    simpa [Vec3.mk.injEq] using hmid
  have hb :
      worldBox ⟨⟨px, py, pz⟩, rot, ⟨1, 1, 1⟩, nd, ⟨⟨a1, a2, a3⟩, ⟨b1, b2, b3⟩⟩⟩
        = ⟨⟨px + a1, py + a2, pz + a3⟩, ⟨px + b1, py + b2, pz + b3⟩⟩ := by
    simp [worldBox, Vec3.hmul]
  rw [hb] at hpos
  have hne : ¬ (Box3.mk ⟨px + a1, py + a2, pz + a3⟩ ⟨px + b1, py + b2, pz + b3⟩).isEmpty := by
    simp only [Box3.isEmpty, not_or, not_lt]
    refine ⟨by linarith, by linarith, by linarith⟩
  have hsize :
      (Box3.mk ⟨px + a1, py + a2, pz + a3⟩ ⟨px + b1, py + b2, pz + b3⟩).getSize
        = ⟨b1 - a1, b2 - a2, b3 - a3⟩ := by
    rw [Box3.getSize, if_neg hne]
    simp only [Vec3.sub_def, Vec3.mk.injEq]
    refine ⟨by ring, by ring, by ring⟩
  rw [maxDimOf, hsize] at hpos
  dsimp only at hpos
  have hM : (0:ℚ) < max (b1 - a1) (max (b2 - a2) (b3 - a3)) := hpos
  have hs : (0:ℚ) ≤ 0.6 / max (b1 - a1) (max (b2 - a2) (b3 - a3)) := by positivity
  have happ :
      autoCenterAndScale ⟨⟨px, py, pz⟩, rot, ⟨1, 1, 1⟩, nd, ⟨⟨a1, a2, a3⟩, ⟨b1, b2, b3⟩⟩⟩
        = { position := ⟨0, (b2 - a2) * 0.02, 0⟩
            rotation := rot
            scale := ⟨0.6 / max (b1 - a1) (max (b2 - a2) (b3 - a3)),
                      0.6 / max (b1 - a1) (max (b2 - a2) (b3 - a3)),
                      0.6 / max (b1 - a1) (max (b2 - a2) (b3 - a3))⟩
            node := nd
            localBox := ⟨⟨a1, a2, a3⟩, ⟨b1, b2, b3⟩⟩ } := by
    rw [autoCenterAndScale]
    rw [hb, hsize]
    rw [Box3.getCenter, if_neg hne]
    dsimp only
    rw [if_pos hM]
    simp only [Object3D.mk.injEq, Vec3.mk.injEq, Vec3.smul_def, Vec3.add_def]
    repeat' apply And.intro
    all_goals first
      | trivial
      | ring1
      | (ring_nf; linarith)
  rw [happ, hb, hsize]
  set s : ℚ := 0.6 / max (b1 - a1) (max (b2 - a2) (b3 - a3)) with hsdef
  have hwb2 :
      worldBox { position := ⟨0, (b2 - a2) * 0.02, 0⟩
                 rotation := rot
                 scale := (⟨s, s, s⟩ : Vec3)
                 node := nd
                 localBox := ⟨⟨a1, a2, a3⟩, ⟨b1, b2, b3⟩⟩ }
        = ⟨⟨s * a1, (b2 - a2) * 0.02 + s * a2, s * a3⟩,
           ⟨s * b1, (b2 - a2) * 0.02 + s * b2, s * b3⟩⟩ := by
    simp only [worldBox, Vec3.hmul_def, Vec3.add_def, Box3.mk.injEq, Vec3.mk.injEq]
    repeat' apply And.intro
    all_goals first
      | trivial
      | ring1
  rw [hwb2]
  have hne2 : ¬ (Box3.mk ⟨s * a1, (b2 - a2) * 0.02 + s * a2, s * a3⟩
      ⟨s * b1, (b2 - a2) * 0.02 + s * b2, s * b3⟩).isEmpty := by
    simp only [Box3.isEmpty, not_or, not_lt]
    have q1 : s * a1 ≤ s * b1 := mul_le_mul_of_nonneg_left hle1 hs
    have q2 : s * a2 ≤ s * b2 := mul_le_mul_of_nonneg_left hle2 hs
    have q3 : s * a3 ≤ s * b3 := mul_le_mul_of_nonneg_left hle3 hs
    refine ⟨by linarith, by linarith, by linarith⟩
  constructor
  · rw [Box3.getCenter, if_neg hne2]
    have t1 : s * a1 + s * b1 = 0 := by rw [← mul_add, hm1, mul_zero]
    have t2 : s * a2 + s * b2 = 0 := by rw [← mul_add, hm2, mul_zero]
    have t3 : s * a3 + s * b3 = 0 := by rw [← mul_add, hm3, mul_zero]
    simp only [Vec3.smul_def, Vec3.add_def, Vec3.mk.injEq]
    refine ⟨?_, ?_, ?_⟩ <;> (ring_nf; ring_nf at t1 t2 t3; linarith)
  · rw [maxDimOf, Box3.getSize, if_neg hne2]
    dsimp only
    have e1 : s * b1 - s * a1 = s * (b1 - a1) := by ring
    have e2 : ((b2 - a2) * 0.02 + s * b2) - ((b2 - a2) * 0.02 + s * a2)
        = s * (b2 - a2) := by ring
    have e3 : s * b3 - s * a3 = s * (b3 - a3) := by ring
    rw [Vec3.sub_def]
    dsimp only
    rw [e1, e2, e3, ← mul_max_of_nonneg _ _ hs, ← mul_max_of_nonneg _ _ hs,
      hsdef, div_mul_cancel₀]
    exact ne_of_gt hM

/-- Counterexample for C8 as frozen: a unit cube whose local-frame center
sits at (10, 0, 0), with identity transform.  Its box has maxDim = 1 > 0,
yet after autoCenterAndScale the box center has x-coordinate -4, not 0: the
box is not centered at the origin up to the vertical nudge. -/
theorem autoCenterAndScale_center_cex :
    0 < maxDimOf (worldBox cexOffsetObj)
    ∧ ((worldBox (autoCenterAndScale cexOffsetObj)).getCenter).x ≠ 0 := by
  constructor
  · norm_num [maxDimOf, worldBox, cexOffsetObj, Box3.getSize, Box3.isEmpty,
      Vec3.hmul, max_def]
  · norm_num [autoCenterAndScale, worldBox, cexOffsetObj, Box3.getSize,
      Box3.getCenter, Box3.isEmpty, Vec3.hmul, max_def]

/-- Witness for C8 on the cube object centered at its pivot: size (2,4,2),
position (1,2,3); the result box is centered at (0, 4 * 0.02, 0) and has
largest dimension 0.6. -/
theorem autoCenterAndScale_centered_witness :
    ((centeredObj.rotation = ⟨0, 0, 0⟩ ∧ centeredObj.scale = ⟨1, 1, 1⟩
        ∧ centeredObj.localBox.min + centeredObj.localBox.max = ⟨0, 0, 0⟩)
      ∧ centeredObj.localBox.min.x ≤ centeredObj.localBox.max.x
      ∧ centeredObj.localBox.min.y ≤ centeredObj.localBox.max.y
      ∧ centeredObj.localBox.min.z ≤ centeredObj.localBox.max.z
      ∧ 0 < maxDimOf (worldBox centeredObj))
    ∧ (worldBox (autoCenterAndScale centeredObj)).getCenter
        = ⟨0, (worldBox centeredObj).getSize.y * 0.02, 0⟩
    ∧ maxDimOf (worldBox (autoCenterAndScale centeredObj)) = 0.6 := by
  have h5 : 0 < maxDimOf (worldBox centeredObj) := by
    norm_num [maxDimOf, worldBox, centeredObj, Box3.getSize, Box3.isEmpty,
      Vec3.hmul, max_def]
  have main := autoCenterAndScale_centered centeredObj rfl rfl
    (by norm_num [centeredObj]) (by norm_num [centeredObj])
    (by norm_num [centeredObj]) (by norm_num [centeredObj]) h5
  exact ⟨⟨⟨rfl, rfl, by norm_num [centeredObj]⟩, by norm_num [centeredObj],
    by norm_num [centeredObj], by norm_num [centeredObj], h5⟩, main.1, main.2⟩

/-! ## Helper lemmas for the two material-propagation variants -/

/-- On a mesh material field in the agreement domain, the per-entry update
of the first variant coincides with tweakRef of the second variant. -/
theorem updateEntryV1_agree (metal rough : ℚ) (env : Bool) (r : MatRef)
    (h : entryOK env r = true) :
    updateEntryV1 metal rough r = tweakRef r metal rough env := by
  cases r with
  | single mo =>
    cases mo with
    | none => rfl
    | some m =>
      simp only [entryOK, Bool.and_eq_true, decide_eq_true_eq] at h
      obtain ⟨⟨hm, hr⟩, henv⟩ := h
      simp only [updateEntryV1, tweakRef, tweakPBR, hm, hr, Bool.and_self, if_true]
      obtain ⟨mm, mr, me, mu, mp⟩ := m
      simp only at henv
      simp [henv]
  | multi ms => simp [entryOK] at h

mutual

/-- On a scene graph in the agreement domain, the two variants produce the
same tree. -/
theorem variants_agree_node (metal rough : ℚ) (env : Bool) :
    (n : Node3D) → treeOK env n = true →
      updateMaterialSettings metal rough n = applyMetalMaterial metal rough env n
  | .node isMesh r cs, h => by
    simp only [treeOK, Bool.and_eq_true, Bool.or_eq_true, Bool.not_eq_true'] at h
    obtain ⟨hhead, htail⟩ := h
    cases isMesh with
    | false =>
      simp only [updateMaterialSettings, applyMetalMaterial,
        variants_agree_list metal rough env cs htail]
      simp
    | true =>
      have hr : entryOK env r = true := by
        rcases hhead with hfalse | hok
        · cases hfalse
        · exact hok
      simp only [updateMaterialSettings, applyMetalMaterial, if_pos rfl]
      rw [variants_agree_list metal rough env cs htail,
        updateEntryV1_agree metal rough env r hr]

/-- variants_agree_node over a list of sibling subtrees. -/
theorem variants_agree_list (metal rough : ℚ) (env : Bool) :
    (l : List Node3D) → treeOKList env l = true →
      updateMaterialSettingsList metal rough l = applyMetalMaterialList metal rough env l
  | [], _ => rfl
  | c :: cs, h => by
    simp only [treeOKList, Bool.and_eq_true] at h
    simp only [updateMaterialSettingsList, applyMetalMaterialList]
    rw [variants_agree_node metal rough env c h.1,
      variants_agree_list metal rough env cs h.2]

end

/-- C10 (amended): the two material-propagation variants agree exactly on
scene graphs in the agreement domain: every mesh material field is a single
entry that is null or a PBR-capable material whose envMapIntensity already
equals the preset of the second variant (1.2 with an environment map, 0.4
without).  As frozen the claim is false: the first variant never writes
envMapIntensity, writes metalness and roughness even onto non-PBR
materials, and does not reach the materials inside a list-valued material
field (its assignments land on the array object); see the counterexample. -/
theorem variants_agree (metal rough : ℚ) (env : Bool) (root : Node3D)
    (h : treeOK env root = true) :
    updateMaterialSettings metal rough root = applyMetalMaterial metal rough env root :=
  variants_agree_node metal rough env root h

/-- Counterexample for C10 as frozen: on a single mesh whose PBR material
has envMapIntensity 1, the first variant leaves envMapIntensity at 1 while
the second sets it to the preset 0.4 (no environment map): the resulting
materials differ. -/
theorem variants_differ_cex :
    collectMaterials (updateMaterialSettings 0.5 0.5 cexTreeV)
      ≠ collectMaterials (applyMetalMaterial 0.5 0.5 false cexTreeV) := by
  norm_num [cexTreeV, pbrSample, updateMaterialSettings, updateMaterialSettingsList,
    applyMetalMaterial, applyMetalMaterialList, updateEntryV1, tweakRef, tweakPBR,
    collectMaterials, collectMaterialsList, refMaterials, Material.mk.injEq]

/-- Witness for C10 on the one-mesh scene whose material already carries
the inactive-map preset envMapIntensity 0.4. -/
theorem variants_agree_witness :
    treeOK false agreeTree = true
    ∧ updateMaterialSettings 0.7 0.2 agreeTree
        = applyMetalMaterial 0.7 0.2 false agreeTree :=
  ⟨by norm_num [treeOK, treeOKList, entryOK, agreeTree, okMat],
   variants_agree 0.7 0.2 false agreeTree
     (by norm_num [treeOK, treeOKList, entryOK, agreeTree, okMat])⟩

end MetalViewer
